import Mathlib

/-!
Shallow embedding of the idea-intake pipeline of the `idea-bot` repository
(`internal/domain/service/idea.go`, `internal/storage/idea_repo.go`,
`internal/domain/model/idea.go`).

External collaborators (the Claude HTTP API, `encoding/json` decoding of model
output, and the SQLite database) are modelled as oracle functions and failure
flags supplied in environment records; the Go control flow around them is
translated faithfully.  The token buckets of `golang.org/x/time/rate` are
modelled with rational time (in hours) and rational token counts, following
the library's `advance`/`reserveN` logic.  Literal prompt strings sent to the
model are abbreviated to opaque templates: no claim depends on their text,
only on which inputs they are built from.
-/

namespace IdeaBot

/-- Lifecycle status of an idea (`model.IdeaStatus`). -/
inductive IdeaStatus where
  | new
  | reviewed
  | accepted
  | rejected
  | inProgress
  | implemented
deriving DecidableEq, Repr

/-- Structured enrichment produced by the model (`model.EnrichedIdea`). -/
structure EnrichedIdea where
  title : String
  summary : String
  detailedDesc : String
  category : String
  priority : String
  complexity : String
  affectedComponents : List String
  userStory : String
  acceptanceCriteria : List String
  technicalNotes : String
  relatedFeatures : List String
  potentialRisks : List String
deriving DecidableEq, Repr

/-- A persisted idea record (`model.Idea`); the `EnrichedJSON` column and its
parsed form are modelled together as the single `enriched : Option` field. -/
structure Idea where
  id : Int
  telegramMessageID : Int
  telegramChatID : Int
  telegramUserID : Int
  telegramUsername : String
  telegramFirstName : String
  rawText : String
  enriched : Option EnrichedIdea
  title : String
  category : String
  priority : String
  complexity : String
  affectedComponents : List String
  status : IdeaStatus
  adminNotes : String
deriving DecidableEq, Repr

/-- Input for creating a new idea (`model.CreateIdeaInput`). -/
structure CreateIdeaInput where
  telegramMessageID : Int
  telegramChatID : Int
  telegramUserID : Int
  telegramUsername : String
  telegramFirstName : String
  rawText : String
deriving DecidableEq, Repr

/-- Lightweight representation for duplicate checking (`model.IdeaSummary`). -/
structure IdeaSummary where
  id : Int
  title : String
  rawText : String
deriving DecidableEq, Repr

/-- Result of the duplicate check (`service.DuplicateResult`). -/
structure DuplicateResult where
  isDuplicate : Bool
  similarIdeaID : Int
  reason : String
deriving DecidableEq, Repr

/-! ## Token buckets (`golang.org/x/time/rate`)

Time is measured in hours as a rational number.  A Go `rate.Limiter` built by
`rate.NewLimiter(rate.Every(time.Hour/time.Duration(q)), q)` refills `q`
tokens per hour with burst `q`; its zero-initialised `last` time lies far in
the past of any wall-clock `now`, which the model renders as `last = 0` with
calls happening at `now > 0`. -/

/-- State of one `rate.Limiter`: refill rate (tokens per hour), burst
capacity, stored token count, and the time of the last state update. -/
structure Limiter where
  limit : ℚ
  burst : ℕ
  tokens : ℚ
  last : ℚ
deriving DecidableEq, Repr

/-- `rate.NewLimiter`: tokens and last time start at zero. -/
def newLimiter (r : ℚ) (b : ℕ) : Limiter :=
  { limit := r, burst := b, tokens := 0, last := 0 }

/-- The library's `advance`: tokens accumulated by time `now`, capped at the
burst capacity; a `now` before `last` contributes nothing. -/
def Limiter.advanceTokens (l : Limiter) (now : ℚ) : ℚ :=
  let elapsed := if now ≤ l.last then 0 else now - l.last
  let tokens := l.tokens + l.limit * elapsed
  if (l.burst : ℚ) ≤ tokens then (l.burst : ℚ) else tokens

/-- One token is available at `now`: the request of size 1 fits the burst and
the advanced token count is at least 1 (`reserveN` with `n = 1`,
`maxFutureReserve = 0`). -/
def Limiter.hasToken (l : Limiter) (now : ℚ) : Prop :=
  1 ≤ l.burst ∧ 1 ≤ l.advanceTokens now

instance (l : Limiter) (now : ℚ) : Decidable (l.hasToken now) := by
  unfold Limiter.hasToken; infer_instance

/-- `rate.Limiter.Allow`: on success the token is consumed and the state
advanced; on failure the stored state is left unchanged. -/
def Limiter.allow (l : Limiter) (now : ℚ) : Bool × Limiter :=
  let tokens := l.advanceTokens now
  if 1 ≤ l.burst ∧ 1 ≤ tokens then
    (true, { l with tokens := tokens - 1, last := now })
  else
    (false, l)

/-! ## `service.RateLimiter` -/

/-- `service.RateLimiter`: the per-user limiter map (an association list),
the shared global limiter, and the per-user quota used for lazily created
buckets. -/
structure RateLimiter where
  userLimits : List (Int × Limiter)
  globalLimit : Limiter
  perUser : ℕ
deriving DecidableEq, Repr

/-- `service.NewRateLimiter(perUser, global)`. -/
def NewRateLimiter (perUser global : ℕ) : RateLimiter :=
  { userLimits := []
    globalLimit := newLimiter (global : ℚ) global
    perUser := perUser }

/-- Lookup in the per-user limiter map. -/
def lookupUser : List (Int × Limiter) → Int → Option Limiter
  | [], _ => none
  | (k, v) :: rest, key => if k = key then some v else lookupUser rest key

/-- Update/insert in the per-user limiter map. -/
def insertUser : List (Int × Limiter) → Int → Limiter → List (Int × Limiter)
  | [], key, l => [(key, l)]
  | (k, v) :: rest, key, l =>
      if k = key then (key, l) :: rest else (k, v) :: insertUser rest key l

/-- The per-user bucket `Allow` consults for `userID`: the stored one, or the
lazily created fresh bucket on first sight of the submitter. -/
def RateLimiter.userBucket (rl : RateLimiter) (userID : Int) : Limiter :=
  (lookupUser rl.userLimits userID).getD (newLimiter (rl.perUser : ℚ) rl.perUser)

/-- `service.RateLimiter.Allow`: check the global bucket first and return
false at once if it has no token; otherwise consume the global token, fetch
or create the submitter's bucket, and admit only if that bucket also yields a
token.  The consumed global token is not refunded when the per-user check
fails. -/
def RateLimiter.Allow (rl : RateLimiter) (userID : Int) (now : ℚ) :
    Bool × RateLimiter :=
  let g := rl.globalLimit.allow now
  if g.1 = false then
    (false, { rl with globalLimit := g.2 })
  else
    let u := (rl.userBucket userID).allow now
    (u.1, { rl with globalLimit := g.2
                    userLimits := insertUser rl.userLimits userID u.2 })

/-! ## `service.ClaudeService`

The Claude API (`client.Messages.New`) and `encoding/json.Unmarshal` are
external collaborators, modelled as oracle functions.  A response message is
a list of content blocks; the service extracts the first block whose type is
`"text"`. -/

/-- One content block of a model response. -/
structure ContentBlock where
  type : String
  text : String
deriving DecidableEq, Repr

/-- The extraction loop over `message.Content`: the text of the first block
with type `"text"`, or the empty string if none exists. -/
def extractText : List ContentBlock → String
  | [] => ""
  | b :: rest => if b.type = "text" then b.text else extractText rest

/-- Oracles for the external collaborators of `ClaudeService`: the API call
(indexed by the user prompt) and the two JSON decoders. -/
structure ClaudeEnv where
  complete : String → Except String (List ContentBlock)
  unmarshalDup : String → Except String DuplicateResult
  unmarshalEnriched : String → Except String EnrichedIdea

/-- One line of the existing-ideas list sent to the model: the title, or the
raw text truncated to 100 characters with an ellipsis when no title is set. -/
def summaryLine (s : IdeaSummary) : String :=
  let title :=
    if s.title = "" then
      if s.rawText.length > 100 then s.rawText.take 100 ++ "..." else s.rawText
    else s.title
  "- ID " ++ toString s.id ++ ": " ++ title ++ "\n"

/-- The existing-ideas list built by `CheckDuplicate`. -/
def buildIdeasList (l : List IdeaSummary) : String :=
  String.join (l.map summaryLine)

/-- The duplicate-check user prompt (template text abbreviated). -/
def dupPrompt (newIdea ideasList : String) : String :=
  "CHECK-DUPLICATE\nNew idea:\n" ++ newIdea ++ "\nExisting ideas:\n" ++ ideasList

/-- The enrichment user prompt (template text abbreviated). -/
def enrichPrompt (rawIdea username : String) : String :=
  "ENRICH\nUser @" ++ username ++ " submitted an idea:\n" ++ rawIdea

/-- `ClaudeService.CheckDuplicate`.  Returns the verdict (or error) together
with the number of model calls made.  An empty candidate list short-circuits
to a negative verdict with no call; an empty response text or a JSON decoding
failure degrades silently to a negative verdict. -/
def CheckDuplicate (env : ClaudeEnv) (newIdea : String)
    (existingIdeas : List IdeaSummary) : Except String DuplicateResult × ℕ :=
  if existingIdeas = [] then
    (.ok { isDuplicate := false, similarIdeaID := 0, reason := "" }, 0)
  else
    match env.complete (dupPrompt newIdea (buildIdeasList existingIdeas)) with
    | .error e => (.error ("claude API error: " ++ e), 1)
    | .ok content =>
      let responseText := extractText content
      if responseText = "" then
        (.ok { isDuplicate := false, similarIdeaID := 0, reason := "" }, 1)
      else
        match env.unmarshalDup responseText with
        | .error _ =>
            (.ok { isDuplicate := false, similarIdeaID := 0, reason := "" }, 1)
        | .ok result => (.ok result, 1)

/-- `ClaudeService.EnrichIdea`.  A failed API call, an empty response text,
or a JSON decoding failure are each a hard error; otherwise the decoded
payload is returned. -/
def EnrichIdea (env : ClaudeEnv) (rawIdea username : String) :
    Except String EnrichedIdea :=
  match env.complete (enrichPrompt rawIdea username) with
  | .error e => .error ("claude API error: " ++ e)
  | .ok content =>
    let responseText := extractText content
    if responseText = "" then .error "empty response from Claude"
    else
      match env.unmarshalEnriched responseText with
      | .error e => .error ("failed to parse Claude response as JSON: " ++ e)
      | .ok enriched => .ok enriched

/-! ## `storage.IdeaRepository`

The database is modelled as an explicit list of rows (newest first, matching
`ORDER BY created_at DESC` over monotonically increasing insertion times)
plus the auto-increment counter.  Whether a given SQL call fails is external
nondeterminism, supplied as one flag per pipeline call site. -/

/-- The persisted rows, newest first, and the next auto-increment id. -/
structure StorageState where
  ideas : List Idea
  nextId : Int
deriving DecidableEq, Repr

/-- Failure oracles for the four storage calls the pipeline makes, in
pipeline order: the summary fetch, the insert, the enrichment update, and
the final re-read. -/
structure StorageEnv where
  listFails : Bool
  createFails : Bool
  updateFails : Bool
  refreshFails : Bool
deriving DecidableEq, Repr

/-- `status NOT IN ('rejected', 'implemented')`. -/
def terminalStatus (s : IdeaStatus) : Bool :=
  s = IdeaStatus.rejected || s = IdeaStatus.implemented

/-- Row lookup by id. -/
def StorageState.find (st : StorageState) (id : Int) : Option Idea :=
  st.ideas.find? (fun i => i.id = id)

/-- `IdeaRepository.ListSummaries`: non-terminal rows, newest first, capped
at 100, projected to summaries. -/
def ListSummaries (fails : Bool) (st : StorageState) :
    Except String (List IdeaSummary) :=
  if fails then .error "db error"
  else
    .ok (((st.ideas.filter (fun i => !terminalStatus i.status)).take 100).map
      (fun i => { id := i.id, title := i.title, rawText := i.rawText }))

/-- The row the `INSERT` of `IdeaRepository.Create` builds from the input:
status `new`, empty enrichment and presentation columns. -/
def mkIdea (st : StorageState) (input : CreateIdeaInput) : Idea :=
  { id := st.nextId
    telegramMessageID := input.telegramMessageID
    telegramChatID := input.telegramChatID
    telegramUserID := input.telegramUserID
    telegramUsername := input.telegramUsername
    telegramFirstName := input.telegramFirstName
    rawText := input.rawText
    enriched := none
    title := ""
    category := ""
    priority := ""
    complexity := ""
    affectedComponents := []
    status := IdeaStatus.new
    adminNotes := "" }

/-- `IdeaRepository.Create`: insert the new row (then read it back) or fail
atomically. -/
def RepoCreate (fails : Bool) (st : StorageState) (input : CreateIdeaInput) :
    Except String (Idea × StorageState) :=
  if fails then .error "db error"
  else
    let idea := mkIdea st input
    .ok (idea, { ideas := idea :: st.ideas, nextId := st.nextId + 1 })

/-- The column writes of `IdeaRepository.UpdateEnriched` applied to one row. -/
def applyEnrichment (e : EnrichedIdea) (i : Idea) : Idea :=
  { i with enriched := some e
           title := e.title
           category := e.category
           priority := e.priority
           complexity := e.complexity
           affectedComponents := e.affectedComponents }

/-- `IdeaRepository.UpdateEnriched`: update the matching row (an `UPDATE`
matching no row succeeds silently), or fail leaving the state unchanged. -/
def UpdateEnriched (fails : Bool) (st : StorageState) (id : Int)
    (e : EnrichedIdea) : Except String StorageState :=
  if fails then .error "db error"
  else
    .ok { ideas := st.ideas.map (fun i => if i.id = id then applyEnrichment e i else i)
          nextId := st.nextId }

/-- `IdeaRepository.GetByID`: return the row, or fail (also when absent). -/
def GetByID (fails : Bool) (st : StorageState) (id : Int) :
    Except String Idea :=
  if fails then .error "db error"
  else
    match st.find id with
    | none => .error "sql: no rows in result set"
    | some i => .ok i

/-! ## `service.IdeaService.CreateAndEnrich` -/

/-- The Go error values `CreateAndEnrich` can return: plain `fmt.Errorf`
messages and the typed `*service.DuplicateError`. -/
inductive GoError where
  | message (msg : String)
  | duplicateErr (similarID : Int) (reason : String)
deriving DecidableEq, Repr

/-- The external calls the pipeline can make, in the order it makes them. -/
inductive PipeCall where
  | listSummaries
  | llmCheckDuplicate
  | create
  | llmEnrich
  | updateEnriched
  | getByID
deriving DecidableEq, Repr

/-- The oracles for all external collaborators of one `CreateAndEnrich`
run. -/
structure Env where
  claude : ClaudeEnv
  db : StorageEnv

/-- The outcome of one `CreateAndEnrich` run: the three Go return values,
the final rate-limiter and storage states, and the trace of external calls
made after the admission check. -/
structure PipelineResult where
  idea : Option Idea
  enriched : Option EnrichedIdea
  err : Option GoError
  rl : RateLimiter
  st : StorageState
  calls : List PipeCall

/-- The username passed to the enricher: the Telegram username, or the first
name when the username is empty. -/
def pickUsername (input : CreateIdeaInput) : String :=
  if input.telegramUsername = "" then input.telegramFirstName
  else input.telegramUsername

/-- The storage state after a best-effort write: the written state on
success, the old state when the write failed and was merely logged. -/
def bestEffort (r : Except String StorageState) (st : StorageState) :
    StorageState :=
  match r with
  | .error _ => st
  | .ok st' => st'

/-- Steps 5–7 of the pipeline, after the base record was created: enrich,
then best-effort persist the enrichment, then re-read the record discarding
the read's error (`idea, _ = s.repo.GetByID(idea.ID)`). -/
def enrichPhase (env : Env) (rl : RateLimiter) (st : StorageState)
    (input : CreateIdeaInput) (idea : Idea) (calls : List PipeCall) :
    PipelineResult :=
  match EnrichIdea env.claude input.rawText (pickUsername input) with
  | .error _ =>
      { idea := some idea, enriched := none, err := none, rl := rl, st := st
        calls := calls ++ [.llmEnrich] }
  | .ok enriched =>
    match GetByID env.db.refreshFails
        (bestEffort (UpdateEnriched env.db.updateFails st idea.id enriched) st)
        idea.id with
    | .error _ =>
        { idea := none, enriched := some enriched, err := none, rl := rl
          st := bestEffort (UpdateEnriched env.db.updateFails st idea.id enriched) st
          calls := calls ++ [.llmEnrich, .updateEnriched, .getByID] }
    | .ok refreshed =>
        { idea := some refreshed, enriched := some enriched, err := none
          rl := rl
          st := bestEffort (UpdateEnriched env.db.updateFails st idea.id enriched) st
          calls := calls ++ [.llmEnrich, .updateEnriched, .getByID] }

/-- Step 4 of the pipeline: create the base record, aborting fatally on
failure, then continue with the enrichment phase. -/
def createPhase (env : Env) (rl : RateLimiter) (st : StorageState)
    (input : CreateIdeaInput) (calls : List PipeCall) : PipelineResult :=
  match RepoCreate env.db.createFails st input with
  | .error e =>
      { idea := none, enriched := none
        err := some (.message ("failed to create idea: " ++ e))
        rl := rl, st := st, calls := calls ++ [.create] }
  | .ok (idea, st') => enrichPhase env rl st' input idea (calls ++ [.create])

/-- Whether the duplicate-check phase aborts the pipeline: the summary fetch
succeeded with a non-empty window, the model call succeeded, and the parsed
verdict is positive. -/
def dupAborts (env : Env) (st : StorageState) (input : CreateIdeaInput) :
    Bool :=
  match ListSummaries env.db.listFails st with
  | .error _ => false
  | .ok existingIdeas =>
    if existingIdeas = [] then false
    else
      match (CheckDuplicate env.claude input.rawText existingIdeas).1 with
      | .error _ => false
      | .ok r => r.isDuplicate

/-- `IdeaService.CreateAndEnrich`: rate-limit gate, best-effort duplicate
check, record creation, enrichment, best-effort enrichment persistence, and
the final re-read. -/
def CreateAndEnrich (env : Env) (rl : RateLimiter) (st : StorageState)
    (now : ℚ) (input : CreateIdeaInput) : PipelineResult :=
  let g := rl.Allow input.telegramUserID now
  if g.1 = false then
    { idea := none, enriched := none
      err := some (.message "rate limit exceeded")
      rl := g.2, st := st, calls := [] }
  else
    match ListSummaries env.db.listFails st with
    | .error _ => createPhase env g.2 st input [.listSummaries]
    | .ok existingIdeas =>
      if existingIdeas = [] then createPhase env g.2 st input [.listSummaries]
      else
        match (CheckDuplicate env.claude input.rawText existingIdeas).1 with
        | .error _ =>
            createPhase env g.2 st input [.listSummaries, .llmCheckDuplicate]
        | .ok dupResult =>
          if dupResult.isDuplicate then
            { idea := none, enriched := none
              err := some (.duplicateErr dupResult.similarIdeaID dupResult.reason)
              rl := g.2, st := st
              calls := [.listSummaries, .llmCheckDuplicate] }
          else
            createPhase env g.2 st input [.listSummaries, .llmCheckDuplicate]

/-! ## Concrete instances used to evaluate the definitions -/

/-- A sample submission. -/
def sampleInput : CreateIdeaInput :=
  { telegramMessageID := 10, telegramChatID := 20, telegramUserID := 7
    telegramUsername := "alice", telegramFirstName := "Alice"
    rawText := "add dark mode toggle" }

/-- A pre-existing persisted row. -/
def sampleRow : Idea :=
  { id := 1, telegramMessageID := 5, telegramChatID := 20, telegramUserID := 8
    telegramUsername := "bob", telegramFirstName := "Bob"
    rawText := "dark mode", enriched := none, title := "", category := ""
    priority := "", complexity := "", affectedComponents := []
    status := IdeaStatus.new, adminNotes := "" }

/-- A store holding one earlier idea. -/
def sampleStorage : StorageState := { ideas := [sampleRow], nextId := 2 }

/-- An empty store. -/
def emptyStorage : StorageState := { ideas := [], nextId := 1 }

/-- A sample enrichment payload. -/
def samplePayload : EnrichedIdea :=
  { title := "Dark mode", summary := "s", detailedDesc := "d"
    category := "feature", priority := "medium", complexity := "small"
    affectedComponents := ["ui"], userStory := "u", acceptanceCriteria := ["a"]
    technicalNotes := "", relatedFeatures := [], potentialRisks := [] }

/-- A model that flags the new idea as a duplicate of idea 1. -/
def dupVerdictEnv : ClaudeEnv :=
  { complete := fun _ => .ok [{ type := "text", text := "verdict" }]
    unmarshalDup := fun _ =>
      .ok { isDuplicate := true, similarIdeaID := 1, reason := "same feature" }
    unmarshalEnriched := fun _ => .error "unused" }

/-- A model whose responses decode cleanly: negative duplicate verdicts and
the sample payload. -/
def happyClaudeEnv : ClaudeEnv :=
  { complete := fun _ => .ok [{ type := "text", text := "payload" }]
    unmarshalDup := fun _ =>
      .ok { isDuplicate := false, similarIdeaID := 0, reason := "" }
    unmarshalEnriched := fun _ => .ok samplePayload }

/-- A model whose responses never decode as JSON. -/
def parseFailClaudeEnv : ClaudeEnv :=
  { complete := fun _ => .ok [{ type := "text", text := "garbage" }]
    unmarshalDup := fun _ => .error "invalid character"
    unmarshalEnriched := fun _ => .error "invalid character" }

/-- All storage calls succeed. -/
def dbOk : StorageEnv := ⟨false, false, false, false⟩

/-- The summary fetch fails. -/
def dbListFail : StorageEnv := ⟨true, false, false, false⟩

/-- The enrichment update fails. -/
def dbUpdateFail : StorageEnv := ⟨false, false, true, false⟩

/-- The final re-read fails. -/
def dbRefreshFail : StorageEnv := ⟨false, false, false, true⟩

/-- A fresh limiter with quotas 5 per user, 10 global. -/
def freshRL : RateLimiter := NewRateLimiter 5 10

/-- Quota 1 per user, 10 global, after submitter 7 already submitted at time
1: submitter 7's bucket is drained while the global bucket still has
tokens. -/
def c1RL : RateLimiter := ((NewRateLimiter 1 10).Allow 7 1).2

/-- Global quota 1, after one admission at time 1: the global bucket is
drained. -/
def drainedRL : RateLimiter := ((NewRateLimiter 5 1).Allow 1 1).2

/-! ## Helper lemmas -/

/-- A limiter with an available token admits, consumes it, and advances. -/
theorem Limiter.allow_pos {l : Limiter} {now : ℚ} (h : l.hasToken now) :
    l.allow now
      = (true, { l with tokens := l.advanceTokens now - 1, last := now }) := by
  unfold Limiter.hasToken at h
  simp only [Limiter.allow]
  rw [if_pos h]

/-- A limiter without an available token denies and is left unchanged. -/
theorem Limiter.allow_neg {l : Limiter} {now : ℚ} (h : ¬ l.hasToken now) :
    l.allow now = (false, l) := by
  unfold Limiter.hasToken at h
  simp only [Limiter.allow]
  rw [if_neg h]

/-- The boolean admission result coincides with token availability. -/
theorem Limiter.allow_fst {l : Limiter} {now : ℚ} :
    (l.allow now).1 = true ↔ l.hasToken now := by
  by_cases h : l.hasToken now
  · simp [Limiter.allow_pos h, h]
  · simp [Limiter.allow_neg h, h]

/-- Evaluation: the fresh sample limiter admits submitter 7 at time 1. -/
theorem freshRL_allows : (freshRL.Allow 7 1).1 = true := by
  norm_num [freshRL, RateLimiter.Allow, Limiter.allow, Limiter.advanceTokens,
    NewRateLimiter, newLimiter, RateLimiter.userBucket, lookupUser]

/-- Evaluation: the globally drained sample limiter denies submitter 7 at
time 1. -/
theorem drainedRL_denies : (drainedRL.Allow 7 1).1 = false := by
  norm_num [drainedRL, RateLimiter.Allow, Limiter.allow, Limiter.advanceTokens,
    NewRateLimiter, newLimiter, RateLimiter.userBucket, lookupUser, insertUser]

/-! ## Claim theorems -/

/-- C1: `RateLimiter.Allow` returns true only if both the global token
bucket and the submitter's per-user token bucket have an available token at
the instant of the check; the global bucket is checked first and its token
is consumed non-refundably, so a denial caused by the per-user bucket still
depletes the global bucket by one token (its stored count becomes the
advanced count minus one). -/
theorem allow_both_buckets_global_first (rl : RateLimiter) (uid : Int)
    (now : ℚ) :
    ((rl.Allow uid now).1 = true →
      rl.globalLimit.hasToken now ∧ (rl.userBucket uid).hasToken now) ∧
    (rl.globalLimit.hasToken now → ¬ (rl.userBucket uid).hasToken now →
      (rl.Allow uid now).1 = false ∧
      (rl.Allow uid now).2.globalLimit.tokens
        = rl.globalLimit.advanceTokens now - 1) := by
  by_cases hg : rl.globalLimit.hasToken now
  · by_cases hu : (rl.userBucket uid).hasToken now
    · refine ⟨fun _ => ⟨hg, hu⟩, fun _ h => absurd hu h⟩
    · refine ⟨fun htrue => ?_, fun _ _ => ?_⟩
      · exfalso
        have : (rl.Allow uid now).1 = false := by
          simp [RateLimiter.Allow, Limiter.allow_pos hg, Limiter.allow_neg hu]
        rw [this] at htrue
        exact Bool.false_ne_true htrue
      · constructor
        · simp [RateLimiter.Allow, Limiter.allow_pos hg, Limiter.allow_neg hu]
        · simp [RateLimiter.Allow, Limiter.allow_pos hg, Limiter.allow_neg hu]
  · refine ⟨fun htrue => ?_, fun hg' _ => absurd hg' hg⟩
    exfalso
    have : (rl.Allow uid now).1 = false := by
      simp [RateLimiter.Allow, Limiter.allow_neg hg]
    rw [this] at htrue
    exact Bool.false_ne_true htrue

/-- Witness for C1: with per-user quota 1 and global quota 10, submitter 7's
second call at time 1 is denied while the global bucket still loses a
token. -/
theorem allow_both_buckets_global_first_witness :
    (c1RL.Allow 7 1).1 = false ∧
    (c1RL.Allow 7 1).2.globalLimit.tokens
      = c1RL.globalLimit.advanceTokens 1 - 1 :=
  (allow_both_buckets_global_first c1RL 7 1).2
    (by
      norm_num [c1RL, Limiter.hasToken, Limiter.advanceTokens,
        RateLimiter.Allow, Limiter.allow, NewRateLimiter, newLimiter,
        RateLimiter.userBucket, lookupUser, insertUser])
    (by
      norm_num [c1RL, Limiter.hasToken, Limiter.advanceTokens,
        RateLimiter.Allow, Limiter.allow, NewRateLimiter, newLimiter,
        RateLimiter.userBucket, lookupUser, insertUser])

/-- C4: a submission denied by `RateLimiter.Allow` makes `CreateAndEnrich`
return the rate-limit error immediately, with no record, no payload, an
unchanged store, and an empty trace of storage and model calls. -/
theorem createAndEnrich_rate_limited_rejects_immediately (env : Env)
    (rl : RateLimiter) (st : StorageState) (now : ℚ)
    (input : CreateIdeaInput)
    (hDeny : (rl.Allow input.telegramUserID now).1 = false) :
    CreateAndEnrich env rl st now input
      = { idea := none, enriched := none
          err := some (GoError.message "rate limit exceeded")
          rl := (rl.Allow input.telegramUserID now).2, st := st
          calls := [] } := by
  simp [CreateAndEnrich, hDeny]

/-- Witness for C4: a drained global bucket yields the immediate rate-limit
rejection with no external calls. -/
theorem createAndEnrich_rate_limited_rejects_immediately_witness :
    CreateAndEnrich ⟨happyClaudeEnv, dbOk⟩ drainedRL sampleStorage 1
        sampleInput
      = { idea := none, enriched := none
          err := some (GoError.message "rate limit exceeded")
          rl := (drainedRL.Allow sampleInput.telegramUserID 1).2
          st := sampleStorage, calls := [] } :=
  createAndEnrich_rate_limited_rejects_immediately ⟨happyClaudeEnv, dbOk⟩
    drainedRL sampleStorage 1 sampleInput drainedRL_denies

/-- C5: on an empty candidate list `CheckDuplicate` returns the negative
verdict with a nil error and makes zero model calls, for every environment
and every new-idea text. -/
theorem checkDuplicate_empty_window (env : ClaudeEnv) (newIdea : String) :
    CheckDuplicate env newIdea []
      = (.ok { isDuplicate := false, similarIdeaID := 0, reason := "" }, 0) := by
  simp [CheckDuplicate]

/-- C2: when the duplicate check yields a positive verdict, `CreateAndEnrich`
aborts with a `DuplicateError` carrying the similar record's id and the
justification text, the store is unchanged, and the create call is never
made. -/
theorem createAndEnrich_duplicate_aborts (env : Env) (rl : RateLimiter)
    (st : StorageState) (now : ℚ) (input : CreateIdeaInput)
    (l : List IdeaSummary) (r : DuplicateResult)
    (hAllow : (rl.Allow input.telegramUserID now).1 = true)
    (hList : ListSummaries env.db.listFails st = .ok l)
    (hne : l ≠ [])
    (hDup : (CheckDuplicate env.claude input.rawText l).1 = .ok r)
    (hPos : r.isDuplicate = true) :
    (CreateAndEnrich env rl st now input).err
        = some (GoError.duplicateErr r.similarIdeaID r.reason) ∧
    (CreateAndEnrich env rl st now input).idea = none ∧
    (CreateAndEnrich env rl st now input).st = st ∧
    PipeCall.create ∉ (CreateAndEnrich env rl st now input).calls := by
  have hres : CreateAndEnrich env rl st now input
      = { idea := none, enriched := none
          err := some (GoError.duplicateErr r.similarIdeaID r.reason)
          rl := (rl.Allow input.telegramUserID now).2, st := st
          calls := [PipeCall.listSummaries, PipeCall.llmCheckDuplicate] } := by
    simp [CreateAndEnrich, hAllow, hList, hne, hDup, hPos]
  rw [hres]
  exact ⟨rfl, rfl, rfl, by simp⟩

/-- Witness for C2: with a positive model verdict against the stored idea 1,
the run returns the duplicate error for idea 1 and creates nothing. -/
theorem createAndEnrich_duplicate_aborts_witness :
    (CreateAndEnrich ⟨dupVerdictEnv, dbOk⟩ freshRL sampleStorage 1
        sampleInput).err
      = some (GoError.duplicateErr 1 "same feature") ∧
    (CreateAndEnrich ⟨dupVerdictEnv, dbOk⟩ freshRL sampleStorage 1
        sampleInput).idea = none ∧
    (CreateAndEnrich ⟨dupVerdictEnv, dbOk⟩ freshRL sampleStorage 1
        sampleInput).st = sampleStorage ∧
    PipeCall.create ∉ (CreateAndEnrich ⟨dupVerdictEnv, dbOk⟩ freshRL
        sampleStorage 1 sampleInput).calls :=
  createAndEnrich_duplicate_aborts ⟨dupVerdictEnv, dbOk⟩ freshRL
    sampleStorage 1 sampleInput [{ id := 1, title := "", rawText := "dark mode" }]
    { isDuplicate := true, similarIdeaID := 1, reason := "same feature" }
    freshRL_allows rfl (by decide) rfl rfl

/-- When rate limiting admits and the duplicate phase does not abort, the run
is the create phase with one of the two possible call prefixes. -/
theorem run_noDupAbort (env : Env) (rl : RateLimiter) (st : StorageState)
    (now : ℚ) (input : CreateIdeaInput)
    (hAllow : (rl.Allow input.telegramUserID now).1 = true)
    (hNoDup : dupAborts env st input = false) :
    ∃ calls, CreateAndEnrich env rl st now input
      = createPhase env (rl.Allow input.telegramUserID now).2 st input calls := by
  cases hls : ListSummaries env.db.listFails st with
  | error e =>
    exact ⟨[PipeCall.listSummaries], by simp [CreateAndEnrich, hAllow, hls]⟩
  | ok l =>
    by_cases hl : l = []
    · exact ⟨[PipeCall.listSummaries], by simp [CreateAndEnrich, hAllow, hls, hl]⟩
    · cases hcd : (CheckDuplicate env.claude input.rawText l).1 with
      | error e =>
        exact ⟨[PipeCall.listSummaries, PipeCall.llmCheckDuplicate],
          by simp [CreateAndEnrich, hAllow, hls, hl, hcd]⟩
      | ok r =>
        have hr : r.isDuplicate = false := by
          unfold dupAborts at hNoDup
          rw [hls] at hNoDup
          simpa [hl, hcd] using hNoDup
        exact ⟨[PipeCall.listSummaries, PipeCall.llmCheckDuplicate],
          by simp [CreateAndEnrich, hAllow, hls, hl, hcd, hr]⟩

/-- C3: when the base record was created but the enrichment call fails,
`CreateAndEnrich` returns the created record with a nil error, and that
record sits in the store with status `new` and no enriched payload. -/
theorem createAndEnrich_enrich_failure_degraded_success (env : Env)
    (rl : RateLimiter) (st : StorageState) (now : ℚ)
    (input : CreateIdeaInput) (e : String)
    (hAllow : (rl.Allow input.telegramUserID now).1 = true)
    (hNoDup : dupAborts env st input = false)
    (hCreate : env.db.createFails = false)
    (hEnrich : EnrichIdea env.claude input.rawText (pickUsername input)
      = .error e) :
    (CreateAndEnrich env rl st now input).err = none ∧
    (CreateAndEnrich env rl st now input).idea = some (mkIdea st input) ∧
    (CreateAndEnrich env rl st now input).enriched = none ∧
    (mkIdea st input).status = IdeaStatus.new ∧
    (mkIdea st input).enriched = none ∧
    (CreateAndEnrich env rl st now input).st.find (mkIdea st input).id
      = some (mkIdea st input) := by
  obtain ⟨calls, hrun⟩ := run_noDupAbort env rl st now input hAllow hNoDup
  have hres : createPhase env (rl.Allow input.telegramUserID now).2 st input
        calls
      = { idea := some (mkIdea st input), enriched := none, err := none
          rl := (rl.Allow input.telegramUserID now).2
          st := { ideas := mkIdea st input :: st.ideas
                  nextId := st.nextId + 1 }
          calls := calls ++ [PipeCall.create, PipeCall.llmEnrich] } := by
    unfold createPhase RepoCreate
    simp [hCreate, enrichPhase, hEnrich]
  rw [hrun, hres]
  refine ⟨rfl, rfl, rfl, rfl, rfl, ?_⟩
  unfold StorageState.find
  rw [List.find?_cons_of_pos _ (by simp)]

/-- Witness for C3: with an undecodable enrichment response, the run still
succeeds and leaves the fresh unenriched record in the store. -/
theorem createAndEnrich_enrich_failure_degraded_success_witness :
    (CreateAndEnrich ⟨parseFailClaudeEnv, dbOk⟩ freshRL emptyStorage 1
        sampleInput).err = none ∧
    (CreateAndEnrich ⟨parseFailClaudeEnv, dbOk⟩ freshRL emptyStorage 1
        sampleInput).idea = some (mkIdea emptyStorage sampleInput) ∧
    (CreateAndEnrich ⟨parseFailClaudeEnv, dbOk⟩ freshRL emptyStorage 1
        sampleInput).enriched = none ∧
    (mkIdea emptyStorage sampleInput).status = IdeaStatus.new ∧
    (mkIdea emptyStorage sampleInput).enriched = none ∧
    (CreateAndEnrich ⟨parseFailClaudeEnv, dbOk⟩ freshRL emptyStorage 1
        sampleInput).st.find (mkIdea emptyStorage sampleInput).id
      = some (mkIdea emptyStorage sampleInput) :=
  createAndEnrich_enrich_failure_degraded_success ⟨parseFailClaudeEnv, dbOk⟩
    freshRL emptyStorage 1 sampleInput
    "failed to parse Claude response as JSON: invalid character"
    freshRL_allows rfl rfl rfl

/-- C9: when enrichment succeeds but persisting the payload fails, the run
still returns the in-memory payload with a nil error, and the stored record
is left without the payload. -/
theorem createAndEnrich_update_failure_absorbed (env : Env)
    (rl : RateLimiter) (st : StorageState) (now : ℚ)
    (input : CreateIdeaInput) (p : EnrichedIdea)
    (hAllow : (rl.Allow input.telegramUserID now).1 = true)
    (hNoDup : dupAborts env st input = false)
    (hCreate : env.db.createFails = false)
    (hEnrich : EnrichIdea env.claude input.rawText (pickUsername input)
      = .ok p)
    (hUpd : env.db.updateFails = true) :
    (CreateAndEnrich env rl st now input).enriched = some p ∧
    (CreateAndEnrich env rl st now input).err = none ∧
    (CreateAndEnrich env rl st now input).st
      = { ideas := mkIdea st input :: st.ideas, nextId := st.nextId + 1 } := by
  obtain ⟨calls, hrun⟩ := run_noDupAbort env rl st now input hAllow hNoDup
  rw [hrun]
  unfold createPhase RepoCreate enrichPhase
  simp only [hCreate, hEnrich, hUpd, UpdateEnriched, bestEffort,
    Bool.false_eq_true, if_false, if_true]
  split <;> exact ⟨rfl, rfl, rfl⟩

/-- Witness for C9: a failing enrichment update still yields the payload
with a nil error, and the stored row keeps no payload. -/
theorem createAndEnrich_update_failure_absorbed_witness :
    (CreateAndEnrich ⟨happyClaudeEnv, dbUpdateFail⟩ freshRL emptyStorage 1
        sampleInput).enriched = some samplePayload ∧
    (CreateAndEnrich ⟨happyClaudeEnv, dbUpdateFail⟩ freshRL emptyStorage 1
        sampleInput).err = none ∧
    (CreateAndEnrich ⟨happyClaudeEnv, dbUpdateFail⟩ freshRL emptyStorage 1
        sampleInput).st
      = { ideas := mkIdea emptyStorage sampleInput :: emptyStorage.ideas
          nextId := emptyStorage.nextId + 1 } :=
  createAndEnrich_update_failure_absorbed ⟨happyClaudeEnv, dbUpdateFail⟩
    freshRL emptyStorage 1 sampleInput samplePayload
    freshRL_allows rfl rfl rfl rfl

/-- C10: when enrichment succeeds and the final re-read fails, the run
returns a nil record pointer together with the enriched payload and a nil
error: the re-read's error is discarded. -/
theorem createAndEnrich_refresh_failure_nil_idea (env : Env)
    (rl : RateLimiter) (st : StorageState) (now : ℚ)
    (input : CreateIdeaInput) (p : EnrichedIdea)
    (hAllow : (rl.Allow input.telegramUserID now).1 = true)
    (hNoDup : dupAborts env st input = false)
    (hCreate : env.db.createFails = false)
    (hEnrich : EnrichIdea env.claude input.rawText (pickUsername input)
      = .ok p)
    (hRefresh : env.db.refreshFails = true) :
    (CreateAndEnrich env rl st now input).idea = none ∧
    (CreateAndEnrich env rl st now input).enriched = some p ∧
    (CreateAndEnrich env rl st now input).err = none := by
  obtain ⟨calls, hrun⟩ := run_noDupAbort env rl st now input hAllow hNoDup
  rw [hrun]
  unfold createPhase RepoCreate enrichPhase GetByID
  simp [hCreate, hEnrich, hRefresh]

/-- Witness for C10: with a failing final re-read the caller receives no
record but a payload and a nil error. -/
theorem createAndEnrich_refresh_failure_nil_idea_witness :
    (CreateAndEnrich ⟨happyClaudeEnv, dbRefreshFail⟩ freshRL emptyStorage 1
        sampleInput).idea = none ∧
    (CreateAndEnrich ⟨happyClaudeEnv, dbRefreshFail⟩ freshRL emptyStorage 1
        sampleInput).enriched = some samplePayload ∧
    (CreateAndEnrich ⟨happyClaudeEnv, dbRefreshFail⟩ freshRL emptyStorage 1
        sampleInput).err = none :=
  createAndEnrich_refresh_failure_nil_idea ⟨happyClaudeEnv, dbRefreshFail⟩
    freshRL emptyStorage 1 sampleInput samplePayload
    freshRL_allows rfl rfl rfl rfl

/-- The create phase only ever appends the create, enrichment, update and
re-read calls to its input trace; the create call is always attempted. -/
theorem createPhase_calls (env : Env) (rl : RateLimiter) (st : StorageState)
    (input : CreateIdeaInput) (calls : List PipeCall) :
    ∃ suffix, (createPhase env rl st input calls).calls = calls ++ suffix ∧
      PipeCall.create ∈ suffix ∧ PipeCall.llmCheckDuplicate ∉ suffix := by
  unfold createPhase enrichPhase
  split
  · exact ⟨[PipeCall.create], rfl, by simp, by simp⟩
  · split
    · exact ⟨[PipeCall.create, PipeCall.llmEnrich], by simp, by simp, by simp⟩
    · refine ⟨[PipeCall.create, PipeCall.llmEnrich, PipeCall.updateEnriched,
        PipeCall.getByID], ?_, by simp, by simp⟩
      split <;> simp

/-- C8: when the candidate-window fetch fails, `CreateAndEnrich` proceeds
exactly like the create phase on an empty window: no duplicate-check model
call is made and the create call is reached. -/
theorem createAndEnrich_list_failure_proceeds (env : Env) (rl : RateLimiter)
    (st : StorageState) (now : ℚ) (input : CreateIdeaInput) (e : String)
    (hAllow : (rl.Allow input.telegramUserID now).1 = true)
    (hList : ListSummaries env.db.listFails st = .error e) :
    CreateAndEnrich env rl st now input
      = createPhase env (rl.Allow input.telegramUserID now).2 st input
          [PipeCall.listSummaries] ∧
    PipeCall.llmCheckDuplicate ∉ (CreateAndEnrich env rl st now input).calls ∧
    PipeCall.create ∈ (CreateAndEnrich env rl st now input).calls := by
  have hrun : CreateAndEnrich env rl st now input
      = createPhase env (rl.Allow input.telegramUserID now).2 st input
          [PipeCall.listSummaries] := by
    simp [CreateAndEnrich, hAllow, hList]
  obtain ⟨suffix, hc, hcin, hcnot⟩ :=
    createPhase_calls env (rl.Allow input.telegramUserID now).2 st input
      [PipeCall.listSummaries]
  refine ⟨hrun, ?_, ?_⟩
  · rw [hrun, hc]
    simp [List.mem_append, hcnot]
  · rw [hrun, hc]
    simp [List.mem_append, hcin]

/-- Witness for C8: with a failing summary fetch the run equals the create
phase and its trace holds a create call but no duplicate-check call. -/
theorem createAndEnrich_list_failure_proceeds_witness :
    CreateAndEnrich ⟨happyClaudeEnv, dbListFail⟩ freshRL sampleStorage 1
        sampleInput
      = createPhase ⟨happyClaudeEnv, dbListFail⟩
          (freshRL.Allow sampleInput.telegramUserID 1).2 sampleStorage
          sampleInput [PipeCall.listSummaries] ∧
    PipeCall.llmCheckDuplicate
      ∉ (CreateAndEnrich ⟨happyClaudeEnv, dbListFail⟩ freshRL sampleStorage 1
          sampleInput).calls ∧
    PipeCall.create
      ∈ (CreateAndEnrich ⟨happyClaudeEnv, dbListFail⟩ freshRL sampleStorage 1
          sampleInput).calls :=
  createAndEnrich_list_failure_proceeds ⟨happyClaudeEnv, dbListFail⟩ freshRL
    sampleStorage 1 sampleInput "db error" freshRL_allows rfl

/-- C6: a model response that is empty or fails to decode makes
`CheckDuplicate` return the negative verdict with a nil error instead of
propagating a parse error. -/
theorem checkDuplicate_malformed_degrades (env : ClaudeEnv)
    (newIdea : String) (l : List IdeaSummary) (content : List ContentBlock)
    (hne : l ≠ [])
    (hResp : env.complete (dupPrompt newIdea (buildIdeasList l))
      = .ok content)
    (hBad : extractText content = "" ∨
      ∃ e, env.unmarshalDup (extractText content) = .error e) :
    (CheckDuplicate env newIdea l).1
      = .ok { isDuplicate := false, similarIdeaID := 0, reason := "" } := by
  rcases hBad with hEmpty | ⟨e, hErr⟩
  · simp [CheckDuplicate, hne, hResp, hEmpty]
  · by_cases hEmpty : extractText content = ""
    · simp [CheckDuplicate, hne, hResp, hEmpty]
    · simp [CheckDuplicate, hne, hResp, hEmpty, hErr]

/-- Witness for C6: a response the JSON decoder rejects yields the negative
verdict. -/
theorem checkDuplicate_malformed_degrades_witness :
    (CheckDuplicate parseFailClaudeEnv "new idea"
        [{ id := 1, title := "t", rawText := "r" }]).1
      = .ok { isDuplicate := false, similarIdeaID := 0, reason := "" } :=
  checkDuplicate_malformed_degrades parseFailClaudeEnv "new idea"
    [{ id := 1, title := "t", rawText := "r" }]
    [{ type := "text", text := "garbage" }]
    (by simp) rfl (Or.inr ⟨"invalid character", rfl⟩)

/-- C7: `EnrichIdea` returns an error exactly when the model call fails, the
response holds no text, or the text fails to decode; otherwise it returns
the decoded payload with a nil error. -/
theorem enrichIdea_hard_error_policy (env : ClaudeEnv) (raw user : String) :
    ((∃ e, EnrichIdea env raw user = .error e) ↔
      ((∃ e, env.complete (enrichPrompt raw user) = .error e) ∨
       (∃ c, env.complete (enrichPrompt raw user) = .ok c ∧
         extractText c = "") ∨
       (∃ c e, env.complete (enrichPrompt raw user) = .ok c ∧
         extractText c ≠ "" ∧
         env.unmarshalEnriched (extractText c) = .error e))) ∧
    (∀ c p, env.complete (enrichPrompt raw user) = .ok c →
      extractText c ≠ "" →
      env.unmarshalEnriched (extractText c) = .ok p →
      EnrichIdea env raw user = .ok p) := by
  constructor
  · constructor
    · rintro ⟨e, he⟩
      cases hc : env.complete (enrichPrompt raw user) with
      | error e' => exact Or.inl ⟨e', rfl⟩
      | ok c =>
        by_cases ht : extractText c = ""
        · exact Or.inr (Or.inl ⟨c, rfl, ht⟩)
        · cases hu : env.unmarshalEnriched (extractText c) with
          | error e' => exact Or.inr (Or.inr ⟨c, e', rfl, ht, hu⟩)
          | ok p =>
            exfalso
            unfold EnrichIdea at he
            rw [hc] at he
            simp [ht, hu] at he
    · rintro (⟨e, hc⟩ | ⟨c, hc, ht⟩ | ⟨c, e, hc, ht, hu⟩)
      · exact ⟨"claude API error: " ++ e, by unfold EnrichIdea; rw [hc]⟩
      · refine ⟨"empty response from Claude", ?_⟩
        unfold EnrichIdea
        rw [hc]
        simp [ht]
      · refine ⟨"failed to parse Claude response as JSON: " ++ e, ?_⟩
        unfold EnrichIdea
        rw [hc]
        simp [ht, hu]
  · intro c p hc ht hu
    unfold EnrichIdea
    rw [hc]
    simp [ht, hu]

/-- Witness for C7: a decodable response makes `EnrichIdea` return the
decoded payload with a nil error. -/
theorem enrichIdea_hard_error_policy_witness :
    EnrichIdea happyClaudeEnv "raw" "alice" = .ok samplePayload :=
  (enrichIdea_hard_error_policy happyClaudeEnv "raw" "alice").2
    [{ type := "text", text := "payload" }] samplePayload rfl
    (by simp [extractText]) rfl

end IdeaBot
